import Mathlib

/-!
Verification development for the EduSynapse backend (FastAPI + agent pipeline).

The Lean definitions below are shallow embeddings of the Python sources under
`backend/app/`.  Python floats are idealised as `ℚ` where only field
arithmetic and comparisons occur (relevance scores, backoff times) and as `ℝ`
where square roots occur (vector norms).  Python dicts keyed by strings or
ints are modelled as association lists whose lookup shadows on insertion,
matching dict assignment as observed through `get`/`[]`.  Asynchronous calls
to external collaborators (LLM, Tavily, knowledge base, clock) are modelled
by passing their outcome as an explicit argument; a Python function that may
raise is modelled with `Except`.
-/

namespace EduSynapse

/-! ## Generic machinery: stable sorts used by `sorted(...)` / `np.argsort`

Python `sorted(l, key=k, reverse=True)` is a stable descending sort: it is
the unique permutation of `l` ordered by the lexicographic key
`(k x descending, original position ascending)`.  Likewise `np.argsort(v)`
is modelled as the stable ascending sort of indices, i.e. the permutation of
`range n` ordered by `(v i ascending, i ascending)`.  `lexLe f g` is that
lexicographic order pulled back along a primary key `f` and an index key `g`.
-/

def lexLe {β : Type} {κ : Type} [LinearOrder κ] (f : β → κ) (g : β → Nat)
    (a b : β) : Prop :=
  f a < f b ∨ (f a = f b ∧ g a ≤ g b)

instance lexLe.decidableRel {β κ : Type} [LinearOrder κ] (f : β → κ) (g : β → Nat) :
    DecidableRel (lexLe f g) := by
  intro a b
  unfold lexLe
  infer_instance

instance lexLe.isTotal {β κ : Type} [LinearOrder κ] (f : β → κ) (g : β → Nat) :
    IsTotal β (lexLe f g) := by
  constructor
  intro a b
  rcases lt_trichotomy (f a) (f b) with h | h | h
  · exact Or.inl (Or.inl h)
  · rcases Nat.le_total (g a) (g b) with hg | hg
    · exact Or.inl (Or.inr ⟨h, hg⟩)
    · exact Or.inr (Or.inr ⟨h.symm, hg⟩)
  · exact Or.inr (Or.inl h)

instance lexLe.isTrans {β κ : Type} [LinearOrder κ] (f : β → κ) (g : β → Nat) :
    IsTrans β (lexLe f g) := by
  constructor
  rintro a b c (hab | ⟨hab, gab⟩) (hbc | ⟨hbc, gbc⟩)
  · exact Or.inl (hab.trans hbc)
  · exact Or.inl (hbc ▸ hab)
  · exact Or.inl (hab ▸ hbc)
  · exact Or.inr ⟨hab.trans hbc, gab.trans gbc⟩

/-! ## `app/services/adaptive_engine.py` — class `AdaptiveEngine` -/

namespace AdaptiveEngine

/-- `app/models/learner_profile.py`, class `PerformanceWindow`
(the `timestamp` field is ignored; time is not modelled). -/
structure PerformanceWindow where
  score : ℚ
  difficulty : String
  topic : String
  is_correct : Bool
deriving DecidableEq

/-- `AdaptiveEngine.DIFFICULTY_ORDER` (values from `config.DifficultyLevels`). -/
def DIFFICULTY_ORDER : List String :=
  ["beginner", "easy", "medium", "hard", "expert"]

/-- `AdaptiveEngine.INCREASE_THRESHOLD = 0.80`. -/
def INCREASE_THRESHOLD : ℚ := 80 / 100

/-- `AdaptiveEngine.DECREASE_THRESHOLD = 0.50`. -/
def DECREASE_THRESHOLD : ℚ := 50 / 100

/-- `AdaptiveEngine.MIN_QUESTIONS_FOR_ADJUSTMENT = 5`. -/
def MIN_QUESTIONS_FOR_ADJUSTMENT : Nat := 5

/-- `AdaptiveEngine._increase_difficulty`: `DIFFICULTY_ORDER.index` raising
`ValueError` on a missing level is the `none` branch. -/
def increase_difficulty (current : String) : String :=
  match DIFFICULTY_ORDER.findIdx? (fun d => d == current) with
  | some current_index =>
      if current_index < DIFFICULTY_ORDER.length - 1 then
        DIFFICULTY_ORDER.getD (current_index + 1) current
      else current
  | none => current

/-- `AdaptiveEngine._decrease_difficulty`. -/
def decrease_difficulty (current : String) : String :=
  match DIFFICULTY_ORDER.findIdx? (fun d => d == current) with
  | some current_index =>
      if current_index > 0 then
        DIFFICULTY_ORDER.getD (current_index - 1) current
      else current
  | none => current

/-- `AdaptiveEngine.calculate_next_difficulty`.  `recent_performances[-5:]`
is `drop (length - 5)`; `sum(1 for p in recent if p.is_correct)` is the
length of the filtered list; the accuracy division is exact in `ℚ`. -/
def calculate_next_difficulty (current_difficulty : String)
    (recent_performances : List PerformanceWindow)
    (force_direction : Option String) : String :=
  if force_direction = some "up" then increase_difficulty current_difficulty
  else if force_direction = some "down" then decrease_difficulty current_difficulty
  else if recent_performances.length < MIN_QUESTIONS_FOR_ADJUSTMENT then
    current_difficulty
  else
    let recent := recent_performances.drop
      (recent_performances.length - MIN_QUESTIONS_FOR_ADJUSTMENT)
    let correct := (recent.filter (fun p => p.is_correct)).length
    let accuracy : ℚ := (correct : ℚ) / (recent.length : ℚ)
    if accuracy ≥ INCREASE_THRESHOLD then increase_difficulty current_difficulty
    else if accuracy < DECREASE_THRESHOLD then decrease_difficulty current_difficulty
    else current_difficulty

/-- Modelled from the spec: one step up the ordered level sequence
`[beginner, easy, medium, hard, expert]`, clamping at the top boundary
(spec section 4.3: both paths clamp at the sequence boundaries). -/
def spec_step_up : String → String
  | "beginner" => "easy"
  | "easy" => "medium"
  | "medium" => "hard"
  | "hard" => "expert"
  | "expert" => "expert"
  | other => other

/-- Modelled from the spec: one step down the ordered level sequence,
clamping at the bottom boundary. -/
def spec_step_down : String → String
  | "beginner" => "beginner"
  | "easy" => "beginner"
  | "medium" => "easy"
  | "hard" => "medium"
  | "expert" => "hard"
  | other => other

/-- A concrete performance entry: correct iff `b`. -/
def perf (b : Bool) : PerformanceWindow :=
  { score := if b then 1 else 0, difficulty := "medium", topic := "algebra",
    is_correct := b }

end AdaptiveEngine

/-! ## `app/agents/information_retrieval_agent.py` — class `InformationRetrievalAgent`

External collaborators are passed in as arguments: the Tier-1 knowledge-base
search result (`local_results`), and the Tier-2 Tavily outcome
(`tavily_outcome`, an `Except` since the Tavily body may raise).  The LLM
query-expansion branch (`llm_client` present) is not modelled; `expand_query`
is the `llm_client is None` path. -/

namespace InformationRetrievalAgent

/-- One content-chunk dict, with the keys produced by `_local_retrieval`,
`_process_tavily_results` and `_get_structured_template_content`. -/
structure Chunk where
  content_id : String
  content : String
  summary : String
  topic : String
  difficulty : String
  relevance_score : ℚ
  concepts : List String
  source : String
deriving DecidableEq

/-- A chunk after `_rank_results` has set its `final_score` key. -/
structure ScoredChunk where
  chunk : Chunk
  final_score : ℚ
deriving DecidableEq

/-- Python `needle.lower() in haystack.lower()` (substring test). -/
def inLower (needle haystack : String) : Bool :=
  decide (List.IsInfix needle.toLower.toList haystack.toLower.toList)

/-- Lines 653-678 of `_rank_results`: the score accruals for one result.
`0.1`, `0.15`, `0.05` become exact rationals. -/
def compute_final_score (result : Chunk) (recommended_difficulty : String)
    (learner_weaknesses learner_gaps : List String) : ℚ :=
  let score := result.relevance_score
  let score := result.concepts.foldl (fun score concept =>
    let score :=
      if learner_weaknesses.any (fun weakness => inLower weakness concept)
      then score + 1/10 else score
    if learner_gaps.any (fun gap => inLower gap concept)
    then score + 15/100 else score) score
  let score :=
    if result.difficulty == recommended_difficulty then score + 1/10 else score
  let score :=
    if result.source == "tavily_ai_answer" then score + 15/100
    else if result.source == "tavily_search" then score + 1/10
    else if result.source == "local_knowledge_base" then score + 5/100
    else score
  min 1 score

/-- Python `sorted(l, key=key, reverse=True)`: the stable descending sort,
i.e. the permutation of `l` ordered by `(key descending, position ascending)`. -/
def pySortedByDesc {α : Type} (key : α → ℚ) (l : List α) : List α :=
  (l.enum.insertionSort
    (lexLe (fun p => OrderDual.toDual (key p.2)) Prod.fst)).map Prod.snd

/-- `InformationRetrievalAgent._rank_results`. -/
def rank_results (results : List Chunk) (recommended_difficulty : String)
    (learner_weaknesses learner_gaps : List String) : List ScoredChunk :=
  if results.isEmpty then []
  else
    let scored := results.map (fun r =>
      ScoredChunk.mk r
        (compute_final_score r recommended_difficulty learner_weaknesses learner_gaps))
    (pySortedByDesc (fun sc => sc.final_score) scored).take 5

/-- Template for `subject_domain = "Computer_Science"` (lines 447-483). -/
def computer_science_template (topic difficulty : String) : String :=
s!"TECHNICAL ASSESSMENT FRAMEWORK: {topic}

<assessment_context>
Domain: Computer Science / Software Engineering
Topic: {topic}
Difficulty: {difficulty}
</assessment_context>

<core_competencies>
1. ALGORITHMIC UNDERSTANDING
   - Time complexity analysis (Big-O notation)
   - Space complexity trade-offs
   - Optimization strategies and their limitations

2. IMPLEMENTATION KNOWLEDGE
   - Design patterns applicable to {topic}
   - Edge cases and boundary conditions
   - Error handling and fault tolerance

3. SYSTEM DESIGN
   - Scalability considerations for {topic}
   - Performance bottlenecks and solutions
   - Integration patterns with other systems

4. DEBUGGING & TROUBLESHOOTING
   - Common failure modes in {topic}
   - Diagnostic approaches
   - Resolution strategies
</core_competencies>

<question_blueprints>
BLUEPRINT_A (Analysis): \"Given a scenario with [Variable A] and [Variable B], evaluate the impact of {topic} on system performance. Which trade-off is unavoidable?\"

BLUEPRINT_B (Application): \"A production system using {topic} experiences [Symptom X]. Analyze the most likely root cause and propose the optimal resolution strategy.\"

BLUEPRINT_C (Comparison): \"Compare the implementation of {topic} using approach [Method 1] versus [Method 2]. Under what conditions would each be preferred?\"
</question_blueprints>"

/-- Template for `subject_domain = "Professional_Certification"` (lines 485-516). -/
def professional_certification_template (topic difficulty : String) : String :=
s!"PROFESSIONAL ASSESSMENT FRAMEWORK: {topic}

<assessment_context>
Domain: Professional Certification Standards
Topic: {topic}
Difficulty: {difficulty}
</assessment_context>

<competency_areas>
1. REGULATORY KNOWLEDGE
   - Applicable standards and frameworks for {topic}
   - Compliance requirements
   - Industry best practices

2. PROCEDURAL EXPERTISE
   - Standard operating procedures
   - Decision-making frameworks
   - Risk assessment methodologies

3. PROFESSIONAL JUDGMENT
   - Ethical considerations in {topic}
   - Stakeholder impact analysis
   - Documentation and reporting requirements
</competency_areas>

<question_blueprints>
BLUEPRINT_A (Procedural): \"In a scenario where [Condition X] is met, how does {topic} dictate the optimal procedural response according to [Framework Y]?\"

BLUEPRINT_B (Judgment): \"A professional encounters [Ethical Dilemma] while implementing {topic}. Evaluate the appropriate course of action considering [Constraint Z].\"

BLUEPRINT_C (Integration): \"How do the requirements of {topic} interact with [Related Standard W] when [Condition] exists?\"
</question_blueprints>"

/-- Template for `subject_domain = "Medical"` (lines 518-549). -/
def medical_template (topic difficulty : String) : String :=
s!"CLINICAL ASSESSMENT FRAMEWORK: {topic}

<assessment_context>
Domain: Medical / Biomedical Sciences
Topic: {topic}
Difficulty: {difficulty}
</assessment_context>

<competency_areas>
1. MECHANISTIC UNDERSTANDING
   - Physiological pathways related to {topic}
   - Cellular and molecular mechanisms
   - Homeostatic regulation

2. CLINICAL APPLICATION
   - Diagnostic criteria and differential diagnosis
   - Treatment protocols and contraindications
   - Patient monitoring parameters

3. PATHOPHYSIOLOGY
   - Disease mechanisms affecting {topic}
   - Compensatory responses
   - Therapeutic targets
</competency_areas>

<question_blueprints>
BLUEPRINT_A (Mechanism): \"Analyze the physiological pathway of {topic}. If [Inhibitor Z] is introduced, which downstream effect most clearly demonstrates understanding of the mechanism?\"

BLUEPRINT_B (Clinical): \"A patient presents with [Symptom Complex]. Based on the pathophysiology of {topic}, which finding would most strongly support the suspected diagnosis?\"

BLUEPRINT_C (Therapeutic): \"When treating a condition affecting {topic}, what is the primary consideration when [Comorbidity X] is present?\"
</question_blueprints>"

/-- Template for `subject_domain = "STEM"` (lines 551-582). -/
def stem_template (topic difficulty : String) : String :=
s!"SCIENTIFIC ASSESSMENT FRAMEWORK: {topic}

<assessment_context>
Domain: STEM (Science, Technology, Engineering, Mathematics)
Topic: {topic}
Difficulty: {difficulty}
</assessment_context>

<competency_areas>
1. THEORETICAL FOUNDATIONS
   - Fundamental principles governing {topic}
   - Mathematical models and equations
   - Assumptions and limitations

2. EXPERIMENTAL METHODOLOGY
   - Measurement techniques for {topic}
   - Error analysis and uncertainty
   - Data interpretation

3. APPLICATIONS
   - Real-world implementations of {topic}
   - Engineering considerations
   - Interdisciplinary connections
</competency_areas>

<question_blueprints>
BLUEPRINT_A (Analysis): \"Given the relationship between [Variable A] and [Variable B] in {topic}, predict the outcome when [Condition C] is modified. Justify your reasoning.\"

BLUEPRINT_B (Evaluation): \"An experiment investigating {topic} yields [Result X]. Evaluate potential sources of systematic error and their impact on conclusions.\"

BLUEPRINT_C (Synthesis): \"Design an approach to measure [Property P] of {topic} given the constraints of [Limitation L]. What trade-offs are inherent in your design?\"
</question_blueprints>"

/-- The `default_template` for unspecified domains (lines 586-624). -/
def default_template (topic difficulty : String) : String :=
s!"ACADEMIC ASSESSMENT FRAMEWORK: {topic}

<assessment_context>
Domain: General Academic
Topic: {topic}
Difficulty: {difficulty}
</assessment_context>

<competency_areas>
1. CONCEPTUAL UNDERSTANDING
   - Core definitions and principles of {topic}
   - Relationships between key concepts
   - Historical development and context

2. ANALYTICAL SKILLS
   - Critical evaluation of {topic}
   - Comparison with related concepts
   - Identification of strengths and limitations

3. APPLICATION
   - Practical uses of {topic}
   - Problem-solving approaches
   - Real-world implications
</competency_areas>

<question_blueprints>
BLUEPRINT_A (Analysis): \"Evaluate the relationship between [Concept A] and [Concept B] within the context of {topic}. What implications arise from this relationship?\"

BLUEPRINT_B (Application): \"Given a scenario involving {topic} and [Constraint X], determine the optimal approach and justify your reasoning.\"

BLUEPRINT_C (Synthesis): \"How does understanding {topic} contribute to solving [Problem Type Y]? Provide a structured analysis.\"
</question_blueprints>

<assessment_guidelines>
- Questions should test application and analysis, NOT mere recall
- Distractors must represent plausible misconceptions
- Scenarios should reflect realistic professional/academic challenges
- Explanations should illuminate underlying principles
</assessment_guidelines>"

/-- `InformationRetrievalAgent._get_structured_template_content`
(Tier 3): a dict lookup keyed by subject domain, defaulting to the general
template, returned as a singleton chunk list. -/
def get_structured_template_content (topic subject_domain difficulty : String) :
    List Chunk :=
  let templates : List (String × String) :=
    [("Computer_Science", computer_science_template topic difficulty),
     ("Professional_Certification", professional_certification_template topic difficulty),
     ("Medical", medical_template topic difficulty),
     ("STEM", stem_template topic difficulty)]
  let template_content :=
    ((templates.lookup subject_domain).getD (default_template topic difficulty))
  [{ content_id := s!"template_{topic}_{subject_domain}",
     content := template_content,
     summary := s!"Structured assessment framework for {topic}",
     topic := topic,
     difficulty := difficulty,
     relevance_score := 75/100,
     concepts := [topic, s!"{topic} analysis", s!"{topic} application"],
     source := "structured_template" }]

/-- `intent_expansions` in `_expand_query`. -/
def intent_expansions : List (String × List String) :=
  [("definition_seeking", ["definition", "meaning", "what is"]),
   ("explanation_seeking", ["explanation", "how", "why", "concept"]),
   ("application_seeking", ["example", "application", "use case", "practice"]),
   ("clarification_seeking", ["simple explanation", "basics", "fundamentals"])]

/-- `InformationRetrievalAgent._expand_query` with `llm_client = None`. -/
def expand_query (topic : String) (subtopics : List String) (intent : String) :
    String :=
  let query_parts := [topic] ++ subtopics
  let query_parts :=
    match intent_expansions.lookup intent with
    | some exps => query_parts ++ exps.take 2
    | none => query_parts
  String.intercalate " " query_parts

/-- `InformationRetrievalAgent._tavily_dynamic_search`: its body catches any
exception and returns `[]`; an absent Tavily client also returns `[]`
(model that as `Except.error`). -/
def tavily_dynamic_search (outcome : Except String (List Chunk)) : List Chunk :=
  match outcome with
  | Except.error _ => []
  | Except.ok processed_results => processed_results

/-- The fields of the `query_analysis` dict read by `retrieve` (dict-shape
normalisation of lines 88-106 collapsed into plain fields, with the
documented defaults applied by the caller of this model). -/
structure QueryAnalysis where
  topic_main : String
  subtopics : List String
  subject : String
  suggested_difficulty : String
  intent_primary : String
deriving DecidableEq

/-- The fields of the session `context` dict read by `retrieve` and
`_rank_results` (`learner_profile.weaknesses` / `.knowledge_gaps`). -/
structure RetrievalContext where
  topic : Option String
  learner_weaknesses : List String
  learner_gaps : List String
deriving DecidableEq

/-- Line 99-100: fall back to the context topic if `query_analysis` has none. -/
def retrieve_topic (qa : QueryAnalysis) (context : RetrievalContext) : String :=
  if qa.topic_main = "" then context.topic.getD "general" else qa.topic_main

/-- The dict returned by `retrieve` on its success path. -/
structure RetrieveResult where
  status : String
  query : String
  content_chunks : List ScoredChunk
  total_found : Nat
  meta_source : String
deriving DecidableEq

/-- `InformationRetrievalAgent.retrieve`, success path (the enclosing
`try/except` that degrades to templates on an unexpected exception is not
reachable in this model since all modelled steps are total).  Tier 1 is the
`local_results` argument; Tier 2 the `tavily_outcome` argument. -/
def retrieve (qa : QueryAnalysis) (context : RetrievalContext)
    (local_results : List Chunk) (tavily_outcome : Except String (List Chunk)) :
    RetrieveResult :=
  let topic := retrieve_topic qa context
  let difficulty := qa.suggested_difficulty
  let results := local_results
  let results :=
    if results.length < 2 then
      let dynamic_results := tavily_dynamic_search tavily_outcome
      if dynamic_results.isEmpty then
        get_structured_template_content topic qa.subject difficulty
      else dynamic_results
    else results
  let ranked_results :=
    rank_results results difficulty context.learner_weaknesses context.learner_gaps
  { status := "success",
    query := expand_query topic qa.subtopics qa.intent_primary,
    content_chunks := ranked_results,
    total_found := ranked_results.length,
    meta_source :=
      match ranked_results.head? with
      | some c => c.chunk.source
      | none => "none" }

/-- Modelled from the spec: `weakness_overlap_bonus` — 0.1 per concept that
overlaps a learner weakness. -/
def spec_weakness_bonus (concepts weaknesses : List String) : ℚ :=
  (1/10) * ((concepts.filter (fun c => weaknesses.any (fun w => inLower w c))).length : ℚ)

/-- Modelled from the spec: `gap_overlap_bonus` — 0.15 per concept that
overlaps a knowledge gap. -/
def spec_gap_bonus (concepts gaps : List String) : ℚ :=
  (15/100) * ((concepts.filter (fun c => gaps.any (fun g => inLower g c))).length : ℚ)

/-- Modelled from the spec: `difficulty_match_bonus`. -/
def spec_difficulty_bonus (chunk_difficulty recommended : String) : ℚ :=
  if chunk_difficulty = recommended then 1/10 else 0

/-- Modelled from the spec: `source_tier_bonus`. -/
def spec_source_bonus (source : String) : ℚ :=
  if source = "tavily_ai_answer" then 15/100
  else if source = "tavily_search" then 1/10
  else if source = "local_knowledge_base" then 5/100
  else 0

/-- Modelled from the spec ranking formula, amended: `final = base_relevance
+ weakness_overlap_bonus + gap_overlap_bonus + difficulty_match_bonus +
source_tier_bonus`, clamped from above at 1 (the code has no lower clamp). -/
def spec_final_score (c : Chunk) (recommended : String)
    (weaknesses gaps : List String) : ℚ :=
  min 1 (c.relevance_score + spec_weakness_bonus c.concepts weaknesses
    + spec_gap_bonus c.concepts gaps
    + spec_difficulty_bonus c.difficulty recommended
    + spec_source_bonus c.source)

/-- A concrete chunk with a negative base relevance (cosine similarity can
be negative, so local knowledge-base chunks can carry such scores). -/
def c_neg : Chunk :=
  { content_id := "kb_1", content := "some text", summary := "s",
    topic := "algebra", difficulty := "easy", relevance_score := -2,
    concepts := [], source := "local_db" }

/-- A concrete query analysis. -/
def qa0 : QueryAnalysis :=
  { topic_main := "algebra", subtopics := [], subject := "General",
    suggested_difficulty := "medium", intent_primary := "definition_seeking" }

/-- A concrete retrieval context. -/
def rctx0 : RetrievalContext :=
  { topic := some "algebra", learner_weaknesses := [], learner_gaps := [] }

end InformationRetrievalAgent

/-! ## `app/utils/vector_store.py` — class `VectorStore`

Float arrays are idealised as `List ℝ` (square roots occur in the norms).
Dicts become lookup-shadowing association lists.  Disk persistence
(`np.save`, the `.meta.json` file) is not modelled, but the **in-memory**
effect of `_save_index` — reassigning `self._vectors` from
`self._vector_list` — is. -/

/-- The class-level state of `VectorStore` (`_initialized` and the load-time
paths are not modelled; the state below is a post-`initialize` state). -/
structure VectorStore where
  vectors : Option (List (List ℝ))
  id_to_metadata : List (Nat × List (String × String))
  content_id_to_index : List (String × Nat)
  next_id : Nat
  vector_list : List (List ℝ)

namespace VectorStore

/-- Metadata dicts, with string values. -/
abbrev Metadata := List (String × String)

/-- Dict assignment `m[k] = v`, observed through `get`/`lookup`. -/
def dictInsert {κ ν : Type} [BEq κ] (m : List (κ × ν)) (k : κ) (v : ν) :
    List (κ × ν) :=
  (k, v) :: m

/-- A fresh store (no index loaded). -/
def initial : VectorStore :=
  { vectors := none, id_to_metadata := [], content_id_to_index := [],
    next_id := 0, vector_list := [] }

/-- The `size` property (`return self._next_id`). -/
def size (s : VectorStore) : Nat := s.next_id

/-- `VectorStore.add_vector` (the `await self.initialize()` on an
uninitialised store and the defensive `except` are not modelled; the body
never raises here). -/
def add_vector (s : VectorStore) (vector_id : String) (vector : List ℝ)
    (metadata : Option Metadata) : Bool × VectorStore :=
  if (s.content_id_to_index.lookup vector_id).isSome then (true, s)
  else
    let index_id := s.next_id
    let md := dictInsert (metadata.getD []) "vector_id" vector_id
    (true,
      { s with
        vector_list := s.vector_list ++ [vector],
        id_to_metadata := dictInsert s.id_to_metadata index_id md,
        content_id_to_index := dictInsert s.content_id_to_index vector_id index_id,
        next_id := s.next_id + 1 })

/-- `sum(x*x for x in v)`: the squared L2 norm of a row. -/
def normSq (v : List ℝ) : ℝ := (v.map (fun x => x * x)).sum

/-- `np.linalg.norm(v)`. -/
noncomputable def pyNorm (v : List ℝ) : ℝ := Real.sqrt (normSq v)

/-- One row norm after `norms[norms == 0] = 1`. -/
noncomputable def row_norm_nonzero (v : List ℝ) : ℝ :=
  if pyNorm v = 0 then 1 else pyNorm v

/-- One row of `self._vectors / norms`. -/
noncomputable def normalize_row (v : List ℝ) : List ℝ :=
  v.map (fun x => x / row_norm_nonzero v)

/-- `VectorStore._save_index`: its in-memory effect.  Note that it
**reassigns** `self._vectors = np.array(self._vector_list)` before saving,
so the array built (and persisted) comes from the raw `_vector_list`. -/
def save_index (s : VectorStore) : VectorStore :=
  if s.vector_list.isEmpty then s
  else { s with vectors := some s.vector_list }

/-- `VectorStore.build_index`: convert `_vector_list` to an array, normalize
it for cosine similarity, then call `_save_index`. -/
noncomputable def build_index (s : VectorStore) : Bool × VectorStore :=
  if s.vector_list.isEmpty then (false, s)
  else
    let s := { s with vectors := some (s.vector_list.map normalize_row) }
    let s := save_index s
    (true, s)

/-- `np.dot` of two rows. -/
def dot (v w : List ℝ) : ℝ := (List.zipWith (fun a b => a * b) v w).sum

/-- `np.argsort(sims)`, modelled as the deterministic stable ascending
argsort: the permutation of `range n` ordered by `(sims i, i)`
lexicographically. -/
noncomputable def argsortAsc (sims : List ℝ) : List Nat :=
  (List.range sims.length).insertionSort
    (lexLe (fun i => sims.getD i 0) (fun i => i))

/-- One result dict of `search`. -/
structure SearchResult where
  index_id : Nat
  score : ℝ
  distance : Option ℝ
  metadata : Metadata

/-- `VectorStore.search`: normalize the query, dot it against the stored
array, argsort descending (`[::-1]`), truncate to `top_k`. -/
noncomputable def search (s : VectorStore) (query_vector : List ℝ)
    (top_k : Nat) (include_distances : Bool) : List SearchResult :=
  match s.vectors with
  | none => []
  | some vecs =>
    if vecs.isEmpty then []
    else
      let query_norm := pyNorm query_vector
      let query :=
        if query_norm > 0 then query_vector.map (fun x => x / query_norm)
        else query_vector
      let similarities := vecs.map (fun v => dot v query)
      let top_indices := ((argsortAsc similarities).reverse).take top_k
      top_indices.map (fun idx =>
        let metadata := (s.id_to_metadata.lookup idx).getD []
        let similarity := similarities.getD idx 0
        { index_id := idx,
          score := similarity,
          distance := if include_distances then some (1 - similarity) else none,
          metadata := metadata })

/-- A concrete store whose index holds two identical vectors, so that any
query ties their similarity scores. -/
def tie_store : VectorStore :=
  { vectors := some [[1], [1]],
    id_to_metadata := [],
    content_id_to_index := [("a", 0), ("b", 1)],
    next_id := 2,
    vector_list := [[1], [1]] }

/-- A concrete store that already contains the id `"a"`. -/
def one_store : VectorStore :=
  { vectors := none,
    id_to_metadata := [(0, [("vector_id", "a")])],
    content_id_to_index := [("a", 0)],
    next_id := 1,
    vector_list := [[7]] }

end VectorStore

/-! ## `app/agents/crew.py` — class `EduSynapseCrew` and `app/config.py`

Each stage's post-retry outcome (`await self._execute_with_retry(...)`) is
passed in as an `Except String` argument; the per-stage `processingTime`
wall-clock fields and the inter-stage `asyncio.sleep` pacing are not
modelled (real time).  `random.uniform` jitter values are arguments. -/

namespace Crew

/-- `settings.crewai_max_retries` (config.py line 60). -/
def crewai_max_retries : Nat := 3

/-- `settings.crewai_timeout` (config.py line 61), in seconds as `ℚ`. -/
def crewai_timeout : ℚ := 120

/-- Python `needle in haystack` (substring test, case sensitive). -/
def inStr (needle haystack : String) : Bool :=
  decide (List.IsInfix needle.toList haystack.toList)

/-- The outcome of one `await asyncio.wait_for(func(...), timeout=...)`
attempt inside `_execute_with_retry`. -/
inductive WorkResult (α : Type) where
  | ok (a : α)
  | timeout
  | err (msg : String)

/-- What `_execute_with_retry` raises on exhaustion. -/
inductive RetryError where
  | timeoutError
  | exc (msg : String)
deriving DecidableEq

/-- The `for attempt in range(max_retries)` loop of `_execute_with_retry`,
returning the result together with the number of attempts executed.
`attempt == max_retries - 1` is `remaining = 1`, i.e. the `remaining`
pattern below is `0`.  An exhausted `range(0)` loop falls through and
Python returns `None`; that unreachable-for-positive-budget case is the
first equation. -/
def retry_loop {α : Type} (work : Nat → WorkResult α) :
    Nat → Nat → Except RetryError α × Nat
  | _, 0 => (Except.error (RetryError.exc "implicit None: max_retries = 0"), 0)
  | attempt, remaining + 1 =>
    match work attempt with
    | WorkResult.ok a => (Except.ok a, 1)
    | WorkResult.timeout =>
        if remaining = 0 then (Except.error RetryError.timeoutError, 1)
        else
          let next := retry_loop work (attempt + 1) remaining
          (next.1, next.2 + 1)
    | WorkResult.err msg =>
        if remaining = 0 then (Except.error (RetryError.exc msg), 1)
        else
          -- a backoff sleep happens here (see `backoff_sleep`), then retry
          let next := retry_loop work (attempt + 1) remaining
          (next.1, next.2 + 1)

/-- `EduSynapseCrew._execute_with_retry` (attempt control flow). -/
def execute_with_retry {α : Type} (work : Nat → WorkResult α)
    (max_retries : Nat) : Except RetryError α × Nat :=
  retry_loop work 0 max_retries

/-- `rate_limit_indicators` (crew.py line 559). -/
def rate_limit_indicators : List String :=
  ["429", "Too Many Requests", "quota", "insufficient_quota", "rate limit"]

/-- `any(ind in msg for ind in rate_limit_indicators)`. -/
def is_rate_limited (msg : String) : Bool :=
  rate_limit_indicators.any (fun ind => inStr ind msg)

/-- Lines 558-571 of `_execute_with_retry`: the sleep chosen before a
non-final retry of a failed attempt.  `rate_jitter` models
`random.uniform(0, 5)` and `exp_jitter` models `random.uniform(0, 1.5)`. -/
def backoff_sleep (attempt : Nat) (msg : String) (rate_jitter exp_jitter : ℚ) : ℚ :=
  if is_rate_limited msg then
    min (max 55 crewai_timeout) 120 + rate_jitter
  else
    min 60 (2 * 2 ^ attempt + exp_jitter)

/-- Modelled from the spec: `backoff = min(maxBackoff, base·2^attempt) +
jitter` — the claimed formula, with the jitter added on top of the capped
exponential term. -/
def spec_backoff (attempt : Nat) (jitter : ℚ) : ℚ :=
  min 60 (2 * 2 ^ attempt) + jitter

/-- One agent-status `status` value in `generate_question`. -/
inductive AgentState where
  | pending
  | processing
  | completed
  | failed
deriving DecidableEq

/-- The `except` handler (lines 254-258): `if status != "completed":
status = "failed"`, applied to a status history. -/
def markIncomplete (h : List AgentState) : List AgentState :=
  if h.getLast? = some AgentState.completed then h else h ++ [AgentState.failed]

/-- The fields of the crew `context` dict that `_fallback_question` reads. -/
structure CrewContext where
  topic : Option String
  preferred_type : Option String
deriving DecidableEq

/-- A question dict: either the generated stage-3 output, or the
template-based fallback produced by
`QuestionGenerationAgent._academic_template_question`. -/
inductive QuestionVal (γ : Type) where
  | generated (q : γ)
  | template (topic question_type difficulty : String)
deriving DecidableEq

/-- `QuestionGenerationAgent._fallback_question` (lines 1068-1083): a
template question for `context.get("topic", "the subject")` at difficulty
`"medium"`; the time/uuid-seeded template draw inside
`_academic_template_question` is not modelled beyond its deterministic
topic/type/difficulty arguments. -/
def fallback_question {γ : Type} (context : CrewContext) : QuestionVal γ :=
  QuestionVal.template (context.topic.getD "the subject")
    (context.preferred_type.getD "mcq") "medium"

/-- What `EduSynapseCrew.generate_question` returns: the question plus the
`agent_statuses` metadata.  Each stage's field is its chronological status
history (the sequence of values `agent_statuses[name]["status"]` takes);
`is_fallback` is `none` when the key is absent (success path). -/
structure GenerateQuestionResult (γ : Type) where
  question : QuestionVal γ
  is_fallback : Option Bool
  query_analysis_status : List AgentState
  information_retrieval_status : List AgentState
  question_generation_status : List AgentState
deriving DecidableEq

/-- `EduSynapseCrew.generate_question`.  The three stage outcomes are the
post-retry results of the three `_execute_with_retry` calls; an
`Except.error` is the exception reaching the `except` handler, which marks
every non-completed stage failed and returns the fallback question with
`is_fallback = True`. -/
def generate_question {α β γ : Type} (context : CrewContext)
    (qa_outcome : Except String α) (ir_outcome : Except String β)
    (qg_outcome : Except String γ) : GenerateQuestionResult γ :=
  let qaH := [AgentState.pending, AgentState.processing]
  let irH := [AgentState.pending]
  let qgH := [AgentState.pending]
  match qa_outcome with
  | Except.error _ =>
      { question := fallback_question context, is_fallback := some true,
        query_analysis_status := markIncomplete qaH,
        information_retrieval_status := markIncomplete irH,
        question_generation_status := markIncomplete qgH }
  | Except.ok _ =>
    let qaH := qaH ++ [AgentState.completed]
    let irH := irH ++ [AgentState.processing]
    match ir_outcome with
    | Except.error _ =>
        { question := fallback_question context, is_fallback := some true,
          query_analysis_status := markIncomplete qaH,
          information_retrieval_status := markIncomplete irH,
          question_generation_status := markIncomplete qgH }
    | Except.ok _ =>
      let irH := irH ++ [AgentState.completed]
      let qgH := qgH ++ [AgentState.processing]
      match qg_outcome with
      | Except.error _ =>
          { question := fallback_question context, is_fallback := some true,
            query_analysis_status := markIncomplete qaH,
            information_retrieval_status := markIncomplete irH,
            question_generation_status := markIncomplete qgH }
      | Except.ok q =>
        let qgH := qgH ++ [AgentState.completed]
        { question := QuestionVal.generated q, is_fallback := none,
          query_analysis_status := qaH,
          information_retrieval_status := irH,
          question_generation_status := qgH }

/-- One legal transition of the claimed stage-status protocol
`pending → processing → \x7bcompleted | failed\x7d`. -/
def allowedStep (a b : AgentState) : Bool :=
  match a, b with
  | AgentState.pending, AgentState.processing => true
  | AgentState.processing, AgentState.completed => true
  | AgentState.processing, AgentState.failed => true
  | _, _ => false

/-- The claimed protocol: a status history starts at `pending` and every
transition is an `allowedStep` (no skipped transitions). -/
def follows_protocol (h : List AgentState) : Prop :=
  h.head? = some AgentState.pending ∧ h.Chain' (fun a b => allowedStep a b = true)

/-- A concrete crew context. -/
def crew_ctx0 : CrewContext := { topic := some "algebra", preferred_type := none }

end Crew

/-! ## Theorems -/

/-- An always-timing-out unit of work makes exactly `n` attempts and then
re-raises the timeout, for any positive budget `n`. -/
theorem retry_loop_timeout : ∀ n : Nat, 1 ≤ n → ∀ attempt,
    Crew.retry_loop (fun _ => (Crew.WorkResult.timeout : Crew.WorkResult Unit)) attempt n
      = (Except.error Crew.RetryError.timeoutError, n) := by
  intro n
  induction n with
  | zero => omega
  | succ m ih =>
    intro _ attempt
    by_cases hm : m = 0
    · subst hm
      simp [Crew.retry_loop]
    · have h1 : 1 ≤ m := Nat.one_le_iff_ne_zero.mpr hm
      simp only [Crew.retry_loop, hm, if_false, ih h1 (attempt + 1)]

/-- Claim C8: with the configured default `max_retries = 3` and a unit of
work that times out on every attempt, `_execute_with_retry` makes exactly 3
attempts and then raises the timeout error; in general it retries up to any
positive `max_retries` and raises on exhaustion. -/
theorem execute_with_retry_timeout_budget :
    (Crew.execute_with_retry (fun _ => (Crew.WorkResult.timeout : Crew.WorkResult Unit))
        Crew.crewai_max_retries
      = (Except.error Crew.RetryError.timeoutError, 3)) ∧
    (∀ max_retries : Nat, 1 ≤ max_retries →
      Crew.execute_with_retry (fun _ => (Crew.WorkResult.timeout : Crew.WorkResult Unit))
          max_retries
        = (Except.error Crew.RetryError.timeoutError, max_retries)) := by
  constructor
  · exact retry_loop_timeout 3 (by norm_num) 0
  · intro n hn
    exact retry_loop_timeout n hn 0

/-- Witness for C8 at the concrete budget 1. -/
theorem execute_with_retry_timeout_budget_witness :
    Crew.execute_with_retry (fun _ => (Crew.WorkResult.timeout : Crew.WorkResult Unit)) 1
      = (Except.error Crew.RetryError.timeoutError, 1) :=
  execute_with_retry_timeout_budget.2 1 (by norm_num)

/-- Claim C9, counterexample: at `attempt = 5`, `jitter = 1`, on a generic
(non-rate-limit) error the code sleeps `min(60, 2·2^5 + 1) = 60`, while the
claimed formula `min(60, 2·2^5) + 1` gives 61.  The jitter is inside the
cap, not added on top of it. -/
theorem generic_backoff_cap_counterexample :
    Crew.backoff_sleep 5 "boom" 0 1 = 60 ∧
    Crew.spec_backoff 5 1 = 61 ∧ (60 : ℚ) ≠ 61 := by
  refine ⟨?_, ?_, by norm_num⟩
  · have hmsg : Crew.is_rate_limited "boom" = false := by decide
    simp only [Crew.backoff_sleep, hmsg, Bool.false_eq_true, if_false]
    have h : (2 : ℚ) * 2 ^ 5 + 1 = 65 := by norm_num
    rw [h, min_eq_left (by norm_num : (60 : ℚ) ≤ 65)]
  · simp only [Crew.spec_backoff]
    have h : (2 : ℚ) * 2 ^ 5 = 64 := by norm_num
    rw [h, min_eq_left (by norm_num : (60 : ℚ) ≤ 64)]
    norm_num

/-- Claim C9, amended: on a non-final generic-error attempt, the sleep is
`min(maxBackoff, base·2^attempt + jitter)` — the jitter is added before the
60-second cap.  Consequently the sleep never exceeds 60: below the cap it
equals `base·2^attempt + jitter`, and once the exponential term alone
reaches 60 it equals exactly 60 (no jitter on top). -/
theorem generic_backoff_formula (attempt : Nat) (msg : String)
    (rate_jitter jitter : ℚ) (hmsg : Crew.is_rate_limited msg = false)
    (h0 : 0 ≤ jitter) :
    Crew.backoff_sleep attempt msg rate_jitter jitter
        = min 60 (2 * 2 ^ attempt + jitter) ∧
    Crew.backoff_sleep attempt msg rate_jitter jitter ≤ 60 ∧
    (2 * 2 ^ attempt + jitter ≤ 60 →
      Crew.backoff_sleep attempt msg rate_jitter jitter = 2 * 2 ^ attempt + jitter) ∧
    (60 ≤ 2 * (2 : ℚ) ^ attempt →
      Crew.backoff_sleep attempt msg rate_jitter jitter = 60) := by
  have hb : Crew.backoff_sleep attempt msg rate_jitter jitter
      = min 60 (2 * 2 ^ attempt + jitter) := by
    simp [Crew.backoff_sleep, hmsg]
  refine ⟨hb, ?_, ?_, ?_⟩
  · rw [hb]; exact min_le_left _ _
  · intro h; rw [hb, min_eq_right h]
  · intro h; rw [hb, min_eq_left (by linarith)]

/-- Witness for C9 (amended) at `attempt = 0`, `jitter = 1`. -/
theorem generic_backoff_formula_witness :
    Crew.backoff_sleep 0 "boom" 0 1 = 2 * 2 ^ 0 + 1 :=
  (generic_backoff_formula 0 "boom" 0 1 (by decide) (by norm_num)).2.2.1
    (by norm_num)

/-- Claim C10: `add_vector` on an id already present returns `True` and
leaves the whole store (vector list, metadata map, id-to-index map, next-id
counter, hence `size`) unchanged; consequently adding the same id twice is
equivalent to adding it once. -/
theorem add_vector_existing_id_noop (s : VectorStore) (vector_id : String)
    (vector : List ℝ) (metadata : Option VectorStore.Metadata) :
    ((s.content_id_to_index.lookup vector_id).isSome = true →
      VectorStore.add_vector s vector_id vector metadata = (true, s) ∧
      VectorStore.size (VectorStore.add_vector s vector_id vector metadata).2
        = VectorStore.size s) ∧
    (∀ (v' : List ℝ) (m' : Option VectorStore.Metadata),
      VectorStore.add_vector
          (VectorStore.add_vector s vector_id vector metadata).2 vector_id v' m'
        = (true, (VectorStore.add_vector s vector_id vector metadata).2)) := by
  constructor
  · intro h
    have he : VectorStore.add_vector s vector_id vector metadata = (true, s) := by
      simp [VectorStore.add_vector, h]
    exact ⟨he, by rw [he]⟩
  · intro v' m'
    by_cases h : (s.content_id_to_index.lookup vector_id).isSome = true
    · have he : VectorStore.add_vector s vector_id vector metadata = (true, s) := by
        simp [VectorStore.add_vector, h]
      rw [he]
      simp [VectorStore.add_vector, h]
    · set s1 := (VectorStore.add_vector s vector_id vector metadata).2 with hs1
      have he : (s1.content_id_to_index.lookup vector_id).isSome = true := by
        rw [hs1]
        simp [VectorStore.add_vector, h, VectorStore.dictInsert, List.lookup]
      simp [VectorStore.add_vector, he]

/-- Witness for C10 on a concrete store already containing id `"a"`. -/
theorem add_vector_existing_id_noop_witness :
    VectorStore.add_vector VectorStore.one_store "a" [(1 : ℝ)] none
      = (true, VectorStore.one_store) :=
  ((add_vector_existing_id_noop VectorStore.one_store "a" [(1 : ℝ)] none).1 rfl).1

/-- Claim C4: whichever stage's post-retry outcome is the first to fail,
`generate_question` marks that stage and all subsequent stages failed,
keeps the earlier stages completed, and returns the template-based fallback
question with an explicit `is_fallback = True` flag instead of raising. -/
theorem generate_question_degraded {α β γ : Type} (context : Crew.CrewContext)
    (qa_outcome : Except String α) (ir_outcome : Except String β)
    (qg_outcome : Except String γ) :
    (∀ e, qa_outcome = Except.error e →
      Crew.generate_question context qa_outcome ir_outcome qg_outcome =
        { question := Crew.fallback_question context, is_fallback := some true,
          query_analysis_status :=
            [Crew.AgentState.pending, Crew.AgentState.processing, Crew.AgentState.failed],
          information_retrieval_status :=
            [Crew.AgentState.pending, Crew.AgentState.failed],
          question_generation_status :=
            [Crew.AgentState.pending, Crew.AgentState.failed] }) ∧
    (∀ a e, qa_outcome = Except.ok a → ir_outcome = Except.error e →
      Crew.generate_question context qa_outcome ir_outcome qg_outcome =
        { question := Crew.fallback_question context, is_fallback := some true,
          query_analysis_status :=
            [Crew.AgentState.pending, Crew.AgentState.processing, Crew.AgentState.completed],
          information_retrieval_status :=
            [Crew.AgentState.pending, Crew.AgentState.processing, Crew.AgentState.failed],
          question_generation_status :=
            [Crew.AgentState.pending, Crew.AgentState.failed] }) ∧
    (∀ a b e, qa_outcome = Except.ok a → ir_outcome = Except.ok b →
      qg_outcome = Except.error e →
      Crew.generate_question context qa_outcome ir_outcome qg_outcome =
        { question := Crew.fallback_question context, is_fallback := some true,
          query_analysis_status :=
            [Crew.AgentState.pending, Crew.AgentState.processing, Crew.AgentState.completed],
          information_retrieval_status :=
            [Crew.AgentState.pending, Crew.AgentState.processing, Crew.AgentState.completed],
          question_generation_status :=
            [Crew.AgentState.pending, Crew.AgentState.processing, Crew.AgentState.failed] }) := by
    refine ⟨?_, ?_, ?_⟩
    · intro e he
      subst he
      rfl
    · intro a e ha he
      subst ha
      subst he
      rfl
    · intro a b e ha hb he
      subst ha
      subst hb
      subst he
      rfl

/-- Witness for C4: a concrete stage-1 failure. -/
theorem generate_question_degraded_witness :
    Crew.generate_question (α := Unit) (β := Unit) (γ := Unit) Crew.crew_ctx0
        (Except.error "boom") (Except.ok ()) (Except.ok ()) =
      { question := Crew.fallback_question Crew.crew_ctx0, is_fallback := some true,
        query_analysis_status :=
          [Crew.AgentState.pending, Crew.AgentState.processing, Crew.AgentState.failed],
        information_retrieval_status :=
          [Crew.AgentState.pending, Crew.AgentState.failed],
        question_generation_status :=
          [Crew.AgentState.pending, Crew.AgentState.failed] } :=
  (generate_question_degraded Crew.crew_ctx0 (Except.error "boom")
    (Except.ok ()) (Except.ok ())).1 "boom" rfl

/-- Claim C5, counterexample: when stage 1 fails, the information-retrieval
stage status goes directly `pending → failed`, skipping `processing` — the
claimed protocol does not hold for that status record. -/
theorem stage_status_skip_counterexample :
    (Crew.generate_question (α := Unit) (β := Unit) (γ := Unit) Crew.crew_ctx0
        (Except.error "boom") (Except.ok ()) (Except.ok ())).information_retrieval_status
      = [Crew.AgentState.pending, Crew.AgentState.failed] ∧
    ¬ Crew.follows_protocol [Crew.AgentState.pending, Crew.AgentState.failed] := by
  constructor
  · rfl
  · rintro ⟨-, hchain⟩
    simp [List.chain'_cons, Crew.allowedStep] at hchain

/-- Claim C5, amended: a stage that starts executing follows
`pending → processing → \x7bcompleted | failed\x7d`, but a stage skipped
because an earlier stage failed transitions directly `pending → failed` in
the failure handler.  Every status history is one of the three shapes, and
the `pending → failed` shape occurs only when an earlier stage's outcome
was an error. -/
theorem stage_status_histories {α β γ : Type} (context : Crew.CrewContext)
    (qa_outcome : Except String α) (ir_outcome : Except String β)
    (qg_outcome : Except String γ) (out : Crew.GenerateQuestionResult γ)
    (hout : out = Crew.generate_question context qa_outcome ir_outcome qg_outcome) :
    (out.query_analysis_status
        = [Crew.AgentState.pending, Crew.AgentState.processing, Crew.AgentState.completed] ∨
     out.query_analysis_status
        = [Crew.AgentState.pending, Crew.AgentState.processing, Crew.AgentState.failed]) ∧
    (out.information_retrieval_status
        = [Crew.AgentState.pending, Crew.AgentState.processing, Crew.AgentState.completed] ∨
     out.information_retrieval_status
        = [Crew.AgentState.pending, Crew.AgentState.processing, Crew.AgentState.failed] ∨
     out.information_retrieval_status
        = [Crew.AgentState.pending, Crew.AgentState.failed]) ∧
    (out.question_generation_status
        = [Crew.AgentState.pending, Crew.AgentState.processing, Crew.AgentState.completed] ∨
     out.question_generation_status
        = [Crew.AgentState.pending, Crew.AgentState.processing, Crew.AgentState.failed] ∨
     out.question_generation_status
        = [Crew.AgentState.pending, Crew.AgentState.failed]) ∧
    Crew.follows_protocol out.query_analysis_status ∧
    (out.information_retrieval_status
        = [Crew.AgentState.pending, Crew.AgentState.failed] →
      ∃ e, qa_outcome = Except.error e) ∧
    (out.question_generation_status
        = [Crew.AgentState.pending, Crew.AgentState.failed] →
      (∃ e, qa_outcome = Except.error e) ∨ (∃ e, ir_outcome = Except.error e)) := by
  subst hout
  have hppc : Crew.follows_protocol
      [Crew.AgentState.pending, Crew.AgentState.processing, Crew.AgentState.completed] := by
    refine ⟨rfl, ?_⟩
    simp [List.chain'_cons, Crew.allowedStep]
  have hppf : Crew.follows_protocol
      [Crew.AgentState.pending, Crew.AgentState.processing, Crew.AgentState.failed] := by
    refine ⟨rfl, ?_⟩
    simp [List.chain'_cons, Crew.allowedStep]
  rcases qa_outcome with e | a
  · exact ⟨Or.inr rfl, Or.inr (Or.inr rfl), Or.inr (Or.inr rfl), hppf,
      fun _ => ⟨e, rfl⟩, fun _ => Or.inl ⟨e, rfl⟩⟩
  · rcases ir_outcome with e | b
    · exact ⟨Or.inl rfl, Or.inr (Or.inl rfl), Or.inr (Or.inr rfl), hppc,
        fun h => by simp [Crew.generate_question, Crew.markIncomplete] at h,
        fun _ => Or.inr ⟨e, rfl⟩⟩
    · rcases qg_outcome with e | c
      · exact ⟨Or.inl rfl, Or.inl rfl, Or.inr (Or.inl rfl), hppc,
          fun h => by simp [Crew.generate_question, Crew.markIncomplete] at h,
          fun h => by simp [Crew.generate_question, Crew.markIncomplete] at h⟩
      · exact ⟨Or.inl rfl, Or.inl rfl, Or.inl rfl, hppc,
          fun h => by simp [Crew.generate_question, Crew.markIncomplete] at h,
          fun h => by simp [Crew.generate_question, Crew.markIncomplete] at h⟩

/-- Witness for C5 (amended): a concrete stage-1 failure exhibits the
`pending → failed` shape with the guaranteed earlier-stage error. -/
theorem stage_status_histories_witness :
    ∃ e : String, (Except.error "boom" : Except String Unit) = Except.error e :=
  (stage_status_histories (α := Unit) (β := Unit) (γ := Unit) Crew.crew_ctx0
      (Except.error "boom") (Except.ok ()) (Except.ok ()) _ rfl).2.2.2.2.1 rfl

/-- `_increase_difficulty` is the clamped one-step-up of the spec on every
level of the ordered sequence. -/
theorem increase_eq_step_up (current : String)
    (hcur : current ∈ AdaptiveEngine.DIFFICULTY_ORDER) :
    AdaptiveEngine.increase_difficulty current
      = AdaptiveEngine.spec_step_up current := by
  fin_cases hcur <;> rfl

/-- `_decrease_difficulty` is the clamped one-step-down of the spec on every
level of the ordered sequence. -/
theorem decrease_eq_step_down (current : String)
    (hcur : current ∈ AdaptiveEngine.DIFFICULTY_ORDER) :
    AdaptiveEngine.decrease_difficulty current
      = AdaptiveEngine.spec_step_down current := by
  fin_cases hcur <;> rfl

/-- `calculate_next_difficulty` with no forced direction, rephrased over the
recent-5 accuracy with denominator 5. -/
theorem calc_characterization (current : String)
    (w : List AdaptiveEngine.PerformanceWindow) :
    AdaptiveEngine.calculate_next_difficulty current w none =
      if w.length < 5 then current
      else
        if (((w.drop (w.length - 5)).filter (fun p => p.is_correct)).length : ℚ) / 5
            ≥ 80/100 then
          AdaptiveEngine.increase_difficulty current
        else if (((w.drop (w.length - 5)).filter (fun p => p.is_correct)).length : ℚ) / 5
            < 50/100 then
          AdaptiveEngine.decrease_difficulty current
        else current := by
  unfold AdaptiveEngine.calculate_next_difficulty
  simp only [AdaptiveEngine.MIN_QUESTIONS_FOR_ADJUSTMENT,
    AdaptiveEngine.INCREASE_THRESHOLD, AdaptiveEngine.DECREASE_THRESHOLD]
  rw [if_neg (by simp : ¬ (none : Option String) = some "up"),
      if_neg (by simp : ¬ (none : Option String) = some "down")]
  by_cases h5 : w.length < 5
  · rw [if_pos h5, if_pos h5]
  · have hlen : (List.drop (w.length - 5) w).length = 5 := by
      rw [List.length_drop]
      omega
    rw [if_neg h5, if_neg h5]
    simp only [hlen, Nat.cast_ofNat]

/-- Claim C2: with fewer than 5 window samples the current level is
returned unchanged; with at least 5 samples, recent-5 accuracy `≥ 0.80`
steps one level up (clamped), accuracy `< 0.50` steps one level down
(clamped), anything between holds; and the two concrete scenarios at
`"medium"` give `"easy"` (5 incorrect) and `"hard"` (5 correct). -/
theorem next_difficulty_thresholds (current : String)
    (hcur : current ∈ AdaptiveEngine.DIFFICULTY_ORDER)
    (w : List AdaptiveEngine.PerformanceWindow) :
    (w.length < 5 → AdaptiveEngine.calculate_next_difficulty current w none = current) ∧
    (5 ≤ w.length →
      ((((w.drop (w.length - 5)).filter (fun p => p.is_correct)).length : ℚ) / 5 ≥ 80/100 →
        AdaptiveEngine.calculate_next_difficulty current w none
          = AdaptiveEngine.spec_step_up current) ∧
      ((((w.drop (w.length - 5)).filter (fun p => p.is_correct)).length : ℚ) / 5 < 50/100 →
        AdaptiveEngine.calculate_next_difficulty current w none
          = AdaptiveEngine.spec_step_down current) ∧
      (50/100 ≤ (((w.drop (w.length - 5)).filter (fun p => p.is_correct)).length : ℚ) / 5 →
        (((w.drop (w.length - 5)).filter (fun p => p.is_correct)).length : ℚ) / 5 < 80/100 →
        AdaptiveEngine.calculate_next_difficulty current w none = current)) ∧
    (AdaptiveEngine.calculate_next_difficulty "medium"
        (List.replicate 5 (AdaptiveEngine.perf false)) none = "easy") ∧
    (AdaptiveEngine.calculate_next_difficulty "medium"
        (List.replicate 5 (AdaptiveEngine.perf true)) none = "hard") := by
  have hc := calc_characterization current w
  refine ⟨?_, ?_, ?_, ?_⟩
  · intro hlt
    rw [hc, if_pos hlt]
  · intro hge
    have h5 : ¬ w.length < 5 := by omega
    refine ⟨?_, ?_, ?_⟩
    · intro hacc
      rw [hc, if_neg h5, if_pos hacc, increase_eq_step_up current hcur]
    · intro hacc
      rw [hc, if_neg h5, if_neg (by linarith), if_pos hacc,
        decrease_eq_step_down current hcur]
    · intro h1 h2
      rw [hc, if_neg h5, if_neg (by linarith), if_neg (by linarith)]
  · have hA : (((List.replicate 5 (AdaptiveEngine.perf false)).drop
        ((List.replicate 5 (AdaptiveEngine.perf false)).length - 5)).filter
          (fun p => p.is_correct)).length = 0 := by decide
    rw [calc_characterization, hA]
    norm_num
    decide
  · have hA : (((List.replicate 5 (AdaptiveEngine.perf true)).drop
        ((List.replicate 5 (AdaptiveEngine.perf true)).length - 5)).filter
          (fun p => p.is_correct)).length = 5 := by decide
    rw [calc_characterization, hA]
    norm_num
    decide

section RankingLemmas

open InformationRetrievalAgent

/-- `pySortedByDesc` is witnessed by an index-decorated list that is a
permutation of the input decoration and is strictly ordered by
`(key descending, original position ascending)` — i.e. it is the stable
descending sort. -/
theorem pySortedByDesc_exists_dec {α : Type} (key : α → ℚ) (l : List α) :
    ∃ L : List (ℕ × α),
      L.Perm l.enum ∧
      L.Pairwise (fun a b => key b.2 < key a.2 ∨
        (key a.2 = key b.2 ∧ a.1 < b.1)) ∧
      pySortedByDesc key l = L.map Prod.snd := by
  classical
  set r := lexLe (fun p : ℕ × α => OrderDual.toDual (key p.2)) Prod.fst with hr
  refine ⟨l.enum.insertionSort r, List.perm_insertionSort r l.enum, ?_, rfl⟩
  have hsorted : (l.enum.insertionSort r).Pairwise r :=
    List.sorted_insertionSort r l.enum
  have hfst : ((l.enum.insertionSort r).map Prod.fst).Nodup := by
    have hp : ((l.enum.insertionSort r).map Prod.fst).Perm (l.enum.map Prod.fst) :=
      (List.perm_insertionSort r l.enum).map Prod.fst
    rw [List.enum_map_fst] at hp
    exact hp.nodup_iff.mpr (List.nodup_range l.length)
  have hne : (l.enum.insertionSort r).Pairwise (fun a b => a.1 ≠ b.1) :=
    (List.pairwise_map).mp hfst
  refine (hsorted.and hne).imp ?_
  rintro a b ⟨hab | ⟨heq, hle⟩, hfst_ne⟩
  · exact Or.inl (by simpa using hab)
  · refine Or.inr ⟨by simpa using heq, lt_of_le_of_ne hle hfst_ne⟩

/-- `pySortedByDesc` permutes its input. -/
theorem pySortedByDesc_perm {α : Type} (key : α → ℚ) (l : List α) :
    (pySortedByDesc key l).Perm l := by
  obtain ⟨L, hperm, -, heq⟩ := pySortedByDesc_exists_dec key l
  rw [heq]
  have := hperm.map Prod.snd
  rwa [List.enum_map_snd] at this

/-- `_rank_results` returns `min 5 n` results for `n` inputs. -/
theorem rank_results_length (results : List Chunk) (recommended : String)
    (weaknesses gaps : List String) :
    (rank_results results recommended weaknesses gaps).length
      = min 5 results.length := by
  unfold rank_results
  by_cases h : results.isEmpty
  · rw [if_pos h]
    rw [List.isEmpty_iff] at h
    simp [h]
  · rw [if_neg h]
    rw [List.length_take, (pySortedByDesc_perm _ _).length_eq, List.length_map]

/-- `_rank_results` of a non-empty candidate list is non-empty. -/
theorem rank_results_ne_nil (results : List Chunk) (recommended : String)
    (weaknesses gaps : List String) (h : results ≠ []) :
    rank_results results recommended weaknesses gaps ≠ [] := by
  have hlen := rank_results_length results recommended weaknesses gaps
  intro hnil
  rw [hnil] at hlen
  have : 0 < results.length := List.length_pos.mpr h
  simp at hlen
  omega

/-- The concept loop of `_rank_results` accrues `0.1` per weakness-matching
concept and `0.15` per gap-matching concept. -/
theorem final_score_foldl (weaknesses gaps : List String)
    (concepts : List String) (z : ℚ) :
    concepts.foldl (fun score concept =>
      let score :=
        if weaknesses.any (fun weakness => inLower weakness concept)
        then score + 1/10 else score
      if gaps.any (fun gap => inLower gap concept)
      then score + 15/100 else score) z
    = z + spec_weakness_bonus concepts weaknesses + spec_gap_bonus concepts gaps := by
  induction concepts generalizing z with
  | nil => simp [spec_weakness_bonus, spec_gap_bonus]
  | cons c cs ih =>
    simp only [List.foldl_cons, ih]
    by_cases hw : weaknesses.any (fun weakness => inLower weakness c) <;>
      by_cases hg : gaps.any (fun gap => inLower gap c) <;>
        simp [spec_weakness_bonus, spec_gap_bonus, hw, hg, List.filter_cons] <;>
        push_cast <;> try ring

/-- The difficulty-match accrual equals the spec bonus. -/
theorem ite_diff_bonus (d recommended : String) (S : ℚ) :
    (if d == recommended then S + 1/10 else S)
      = S + InformationRetrievalAgent.spec_difficulty_bonus d recommended := by
  unfold InformationRetrievalAgent.spec_difficulty_bonus
  by_cases h : d = recommended
  · simp [h]
  · simp [h]

/-- The source-tier accrual equals the spec bonus. -/
theorem ite_source_bonus (src : String) (S : ℚ) :
    (if src == "tavily_ai_answer" then S + 15/100
     else if src == "tavily_search" then S + 1/10
     else if src == "local_knowledge_base" then S + 5/100
     else S) = S + InformationRetrievalAgent.spec_source_bonus src := by
  unfold InformationRetrievalAgent.spec_source_bonus
  by_cases h1 : src = "tavily_ai_answer"
  · simp [h1]
  · by_cases h2 : src = "tavily_search"
    · simp [h1, h2]
    · by_cases h3 : src = "local_knowledge_base"
      · simp [h1, h2, h3]
      · simp [h1, h2, h3]

/-- The per-candidate score of `_rank_results` equals the spec formula with
the upper clamp at 1. -/
theorem compute_final_score_eq (c : Chunk) (recommended : String)
    (weaknesses gaps : List String) :
    compute_final_score c recommended weaknesses gaps
      = spec_final_score c recommended weaknesses gaps := by
  unfold compute_final_score spec_final_score
  dsimp only
  rw [final_score_foldl, ite_diff_bonus, ite_source_bonus]

end RankingLemmas

section RankingClaims

open InformationRetrievalAgent

/-- Claim C7, counterexample: the final score is only clamped from above
(`min(1.0, score)`); a candidate with negative base relevance keeps a
negative final score, so the claimed clamp to `[0,1]` is false. -/
theorem rank_results_clamp_counterexample :
    (rank_results [c_neg] "medium" [] []).map (fun sc => sc.final_score)
      = [-2] ∧ ¬ (0 : ℚ) ≤ -2 := by
  have hS : compute_final_score c_neg "medium" [] [] = -2 := by
    rw [compute_final_score_eq]
    unfold spec_final_score spec_weakness_bonus spec_gap_bonus
      spec_difficulty_bonus spec_source_bonus c_neg
    dsimp only
    rw [if_neg (by decide : ¬ ("easy" = "medium")),
        if_neg (by decide : ¬ ("local_db" = "tavily_ai_answer")),
        if_neg (by decide : ¬ ("local_db" = "tavily_search")),
        if_neg (by decide : ¬ ("local_db" = "local_knowledge_base"))]
    simp only [List.filter_nil, List.length_nil, Nat.cast_zero, mul_zero, add_zero]
    exact min_eq_right (by norm_num)
  constructor
  · simp [rank_results, pySortedByDesc, List.insertionSort, List.orderedInsert, hS]
  · norm_num

/-- Claim C7, amended: every returned candidate's final score equals its
base relevance plus the weakness-overlap, gap-overlap, difficulty-match and
source-tier bonuses, clamped **from above** at 1 (no lower clamp); the
returned list is sorted by non-increasing final score, truncated to at most
5 results, and ties keep the input order (stable sort). -/
theorem rank_results_spec (results : List Chunk) (recommended : String)
    (weaknesses gaps : List String) :
    (∀ sc ∈ rank_results results recommended weaknesses gaps,
       sc.final_score = spec_final_score sc.chunk recommended weaknesses gaps) ∧
    ((rank_results results recommended weaknesses gaps).map
        (fun sc => sc.final_score)).Sorted (· ≥ ·) ∧
    (rank_results results recommended weaknesses gaps).length
        = min 5 results.length ∧
    (results.isEmpty = false →
      ∃ L : List (ℕ × ScoredChunk),
        L.Perm ((results.map (fun r => ScoredChunk.mk r
            (compute_final_score r recommended weaknesses gaps))).enum) ∧
        L.Pairwise (fun a b => b.2.final_score < a.2.final_score ∨
          (a.2.final_score = b.2.final_score ∧ a.1 < b.1)) ∧
        rank_results results recommended weaknesses gaps
          = (L.take 5).map Prod.snd) := by
  by_cases hres : results.isEmpty
  · have hnil : results = [] := List.isEmpty_iff.mp hres
    subst hnil
    refine ⟨?_, ?_, ?_, ?_⟩
    · intro sc hsc
      simp [rank_results] at hsc
    · simp [rank_results]
    · simp [rank_results]
    · intro h
      simp [hres] at h
  · obtain ⟨L, hperm, hpair, heq⟩ :=
      pySortedByDesc_exists_dec (fun sc => sc.final_score)
        (results.map (fun r => ScoredChunk.mk r
          (compute_final_score r recommended weaknesses gaps)))
    have hout : rank_results results recommended weaknesses gaps
        = (L.take 5).map Prod.snd := by
      unfold rank_results
      rw [if_neg hres]
      dsimp only
      rw [heq, List.map_take]
    have hpair5 : (L.take 5).Pairwise (fun a b => b.2.final_score < a.2.final_score ∨
        (a.2.final_score = b.2.final_score ∧ a.1 < b.1)) :=
      hpair.sublist (List.take_sublist 5 L)
    refine ⟨?_, ?_, rank_results_length results recommended weaknesses gaps, ?_⟩
    · intro sc hsc
      rw [hout] at hsc
      obtain ⟨p, hp, rfl⟩ := List.mem_map.mp hsc
      have hpL : p ∈ L := List.take_subset 5 L hp
      have hpe : p ∈ (results.map (fun r => ScoredChunk.mk r
          (compute_final_score r recommended weaknesses gaps))).enum :=
        hperm.subset hpL
      have hsnd : p.2 ∈ results.map (fun r => ScoredChunk.mk r
          (compute_final_score r recommended weaknesses gaps)) := by
        have := List.mem_map_of_mem Prod.snd hpe
        rwa [List.enum_map_snd] at this
      obtain ⟨r, -, hr⟩ := List.mem_map.mp hsnd
      rw [← hr]
      simp only []
      exact compute_final_score_eq r recommended weaknesses gaps
    · rw [hout]
      have : (((L.take 5).map Prod.snd).map (fun sc => sc.final_score)).Pairwise
          (· ≥ ·) := by
        rw [List.map_map]
        exact List.pairwise_map.mpr (hpair5.imp (by
          rintro a b (hlt | ⟨heq2, -⟩)
          · exact le_of_lt hlt
          · exact le_of_eq heq2.symm))
      exact this
    · intro _
      exact ⟨L, hperm, hpair, hout⟩

/-- Claim C1: if Tier 1 yields fewer than 2 candidates, the Tier-2 result is
used whenever it is non-empty; if Tier 2 raised or returned nothing, the
Tier-3 structured template (always exactly 1 candidate) is used; with at
least 2 local candidates Tier 1 is kept; and in every case the returned
`content_chunks` list is non-empty. -/
theorem retrieve_tiered_fallback (qa : QueryAnalysis) (context : RetrievalContext)
    (local_results : List Chunk) (tavily_outcome : Except String (List Chunk)) :
    ((get_structured_template_content (retrieve_topic qa context) qa.subject
        qa.suggested_difficulty).length = 1) ∧
    (local_results.length < 2 → ∀ l, tavily_outcome = Except.ok l → l ≠ [] →
      (retrieve qa context local_results tavily_outcome).content_chunks
        = rank_results l qa.suggested_difficulty context.learner_weaknesses
            context.learner_gaps) ∧
    (local_results.length < 2 → tavily_dynamic_search tavily_outcome = [] →
      (retrieve qa context local_results tavily_outcome).content_chunks
        = rank_results
            (get_structured_template_content (retrieve_topic qa context) qa.subject
              qa.suggested_difficulty)
            qa.suggested_difficulty context.learner_weaknesses context.learner_gaps) ∧
    (2 ≤ local_results.length →
      (retrieve qa context local_results tavily_outcome).content_chunks
        = rank_results local_results qa.suggested_difficulty
            context.learner_weaknesses context.learner_gaps) ∧
    (retrieve qa context local_results tavily_outcome).content_chunks ≠ [] := by
  refine ⟨rfl, ?_, ?_, ?_, ?_⟩
  · intro hlt l htav hne
    subst htav
    unfold retrieve
    dsimp only
    rw [if_pos hlt]
    have : tavily_dynamic_search (Except.ok l) = l := rfl
    rw [this, if_neg (by simpa [List.isEmpty_iff] using hne)]
  · intro hlt hdyn
    unfold retrieve
    dsimp only
    rw [if_pos hlt, hdyn]
    rw [if_pos (show ([] : List InformationRetrievalAgent.Chunk).isEmpty = true from rfl)]
  · intro hge
    unfold retrieve
    dsimp only
    rw [if_neg (by omega)]
  · unfold retrieve
    dsimp only
    by_cases hlt : local_results.length < 2
    · rw [if_pos hlt]
      by_cases hdyn : (tavily_dynamic_search tavily_outcome).isEmpty
      · rw [if_pos hdyn]
        apply rank_results_ne_nil
        simp [get_structured_template_content]
      · rw [if_neg hdyn]
        apply rank_results_ne_nil
        simpa [List.isEmpty_iff] using hdyn
    · rw [if_neg hlt]
      apply rank_results_ne_nil
      intro h
      rw [h] at hlt
      simp at hlt

end RankingClaims

section VectorStoreClaims

/-- Claim C6: the code is wrong.  After `add_vector("a", [3,4])` and
`build_index()`, the stored array is the **unnormalized** `[[3,4]]` (squared
norm 25, not 1), because `_save_index` reassigns
`self._vectors = np.array(self._vector_list)` after the normalization,
discarding it.  The normalization step the code computes (and then loses)
would have produced a unit vector, as the last conjunct shows. -/
theorem build_index_loses_normalization :
    ((VectorStore.build_index
        ((VectorStore.add_vector VectorStore.initial "a" [(3 : ℝ), 4] none).2)).2.vectors
      = some [[(3 : ℝ), 4]]) ∧
    (VectorStore.normSq [(3 : ℝ), 4] = 25) ∧
    ((25 : ℝ) ≠ 1) ∧
    (VectorStore.normSq (VectorStore.normalize_row [(3 : ℝ), 4]) = 1) := by
  have h25 : VectorStore.normSq [(3 : ℝ), 4] = 25 := by
    unfold VectorStore.normSq
    norm_num
  have h1 : (VectorStore.add_vector VectorStore.initial "a" [(3 : ℝ), 4] none).2
      = { vectors := none, id_to_metadata := [(0, [("vector_id", "a")])],
          content_id_to_index := [("a", 0)], next_id := 1,
          vector_list := [[3, 4]] } := by
    simp [VectorStore.add_vector, VectorStore.initial, VectorStore.dictInsert]
  refine ⟨?_, h25, by norm_num, ?_⟩
  · rw [h1]
    simp [VectorStore.build_index, VectorStore.save_index]
  · have hn : VectorStore.pyNorm [(3 : ℝ), 4] = 5 := by
      unfold VectorStore.pyNorm
      rw [h25, show (25 : ℝ) = 5 ^ 2 by norm_num,
        Real.sqrt_sq (by norm_num : (0 : ℝ) ≤ 5)]
    have hr : VectorStore.row_norm_nonzero [(3 : ℝ), 4] = 5 := by
      unfold VectorStore.row_norm_nonzero
      rw [hn, if_neg (by norm_num : ¬ (5 : ℝ) = 0)]
    unfold VectorStore.normalize_row
    rw [hr]
    unfold VectorStore.normSq
    norm_num

/-- Claim C3, counterexample: two identical stored vectors tie on every
query; `np.argsort(...)[::-1]` then lists insertion index 1 before 0, so
ties come out in **reverse** insertion order, not insertion order. -/
theorem search_tie_order_counterexample :
    ((VectorStore.search VectorStore.tie_store [(0 : ℝ)] 10 true).map
        (fun r => r.index_id) = [1, 0]) ∧
    ([1, 0] ≠ ([0, 1] : List Nat)) := by
  have hq : VectorStore.pyNorm [(0 : ℝ)] = 0 := by
    unfold VectorStore.pyNorm VectorStore.normSq
    simp
  refine ⟨?_, by decide⟩
  unfold VectorStore.search VectorStore.tie_store
  dsimp only
  rw [hq, if_neg (by norm_num : ¬ (0 : ℝ) > 0)]
  simp only [List.isEmpty_cons, Bool.false_eq_true, if_false,
    List.map_cons, List.map_nil]
  unfold VectorStore.argsortAsc
  simp only [List.length_cons, List.length_nil]
  rw [show List.range 2 = [0, 1] by decide]
  simp only [List.insertionSort, List.orderedInsert]
  have hr01 : EduSynapse.lexLe
      (fun i => ([VectorStore.dot [(1 : ℝ)] [(0 : ℝ)],
        VectorStore.dot [(1 : ℝ)] [(0 : ℝ)]].getD i 0)) (fun i => i) 0 1 := by
    unfold EduSynapse.lexLe
    right
    exact ⟨by simp, by norm_num⟩
  rw [if_pos hr01]
  simp

/-- Claim C3, amended: `search` returns results sorted by non-increasing
score; when two stored vectors tie, the one with the **larger** insertion
index appears first (reverse insertion order), because the ascending stable
argsort is reversed by `[::-1]`. -/
theorem search_score_order (s : VectorStore) (q : List ℝ) (k : Nat) (inc : Bool) :
    (VectorStore.search s q k inc).Pairwise (fun a b => b.score < a.score ∨
      (a.score = b.score ∧ b.index_id < a.index_id)) ∧
    ((VectorStore.search s q k inc).map (fun r => r.score)).Sorted (· ≥ ·) := by
  classical
  rcases hv : s.vectors with - | vecs
  · unfold VectorStore.search
    rw [hv]
    simp
  · unfold VectorStore.search
    rw [hv]
    dsimp only
    by_cases he : vecs.isEmpty
    · rw [if_pos he]
      simp
    · rw [if_neg he]
      set query := if VectorStore.pyNorm q > 0
        then q.map (fun x => x / VectorStore.pyNorm q) else q with hquery
      set sims := vecs.map (fun v => VectorStore.dot v query) with hsims
      have hsorted : (VectorStore.argsortAsc sims).Pairwise
          (lexLe (fun i => sims.getD i 0) (fun i => i)) :=
        List.sorted_insertionSort _ _
      have hrev : ((VectorStore.argsortAsc sims).reverse).Pairwise
          (fun a b => lexLe (fun i => sims.getD i 0) (fun i => i) b a) :=
        (List.pairwise_reverse).mpr hsorted
      have htake : (((VectorStore.argsortAsc sims).reverse).take k).Pairwise
          (fun a b => lexLe (fun i => sims.getD i 0) (fun i => i) b a) :=
        hrev.sublist (List.take_sublist k _)
      have hnody : (((VectorStore.argsortAsc sims).reverse).take k).Nodup := by
        have hperm : (VectorStore.argsortAsc sims).Perm (List.range sims.length) :=
          List.perm_insertionSort _ _
        have hnd : (VectorStore.argsortAsc sims).Nodup :=
          hperm.nodup_iff.mpr (List.nodup_range sims.length)
        exact ((List.take_sublist k _).nodup ((List.nodup_reverse).mpr hnd))
      have hne : (((VectorStore.argsortAsc sims).reverse).take k).Pairwise
          (fun a b => a ≠ b) := hnody
      constructor
      · refine List.pairwise_map.mpr ((htake.and hne).imp ?_)
        rintro i j ⟨hlex | ⟨heq2, hle⟩, hne2⟩
        · exact Or.inl hlex
        · exact Or.inr ⟨heq2.symm, lt_of_le_of_ne hle (fun hji => hne2 hji.symm)⟩
      · refine List.pairwise_map.mpr (List.pairwise_map.mpr (htake.imp ?_))
        rintro i j (hlex | ⟨heq2, -⟩)
        · exact le_of_lt hlex
        · exact le_of_eq heq2

end VectorStoreClaims

/-- Witness for C1: empty Tier 1 and a raising Tier 2 fall through to the
Tier-3 template, and the result is non-empty. -/
theorem retrieve_tiered_fallback_witness :
    (InformationRetrievalAgent.retrieve InformationRetrievalAgent.qa0
        InformationRetrievalAgent.rctx0 [] (Except.error "x")).content_chunks
      = InformationRetrievalAgent.rank_results
          (InformationRetrievalAgent.get_structured_template_content
            (InformationRetrievalAgent.retrieve_topic InformationRetrievalAgent.qa0
              InformationRetrievalAgent.rctx0)
            InformationRetrievalAgent.qa0.subject
            InformationRetrievalAgent.qa0.suggested_difficulty)
          InformationRetrievalAgent.qa0.suggested_difficulty
          InformationRetrievalAgent.rctx0.learner_weaknesses
          InformationRetrievalAgent.rctx0.learner_gaps ∧
    (InformationRetrievalAgent.retrieve InformationRetrievalAgent.qa0
        InformationRetrievalAgent.rctx0 [] (Except.error "x")).content_chunks ≠ [] :=
  ⟨(retrieve_tiered_fallback InformationRetrievalAgent.qa0
      InformationRetrievalAgent.rctx0 [] (Except.error "x")).2.2.1 (by decide) rfl,
   (retrieve_tiered_fallback InformationRetrievalAgent.qa0
      InformationRetrievalAgent.rctx0 [] (Except.error "x")).2.2.2.2⟩

/-- Witness for C7 (amended) on a concrete singleton candidate list. -/
theorem rank_results_spec_witness :
    ∃ L : List (ℕ × InformationRetrievalAgent.ScoredChunk),
      L.Perm (([InformationRetrievalAgent.c_neg].map (fun r =>
        InformationRetrievalAgent.ScoredChunk.mk r
          (InformationRetrievalAgent.compute_final_score r "medium" [] []))).enum) ∧
      L.Pairwise (fun a b => b.2.final_score < a.2.final_score ∨
        (a.2.final_score = b.2.final_score ∧ a.1 < b.1)) ∧
      InformationRetrievalAgent.rank_results [InformationRetrievalAgent.c_neg]
          "medium" [] []
        = (L.take 5).map Prod.snd :=
  (rank_results_spec [InformationRetrievalAgent.c_neg] "medium" [] []).2.2.2 rfl

/-- Witness for C2: five correct answers at `"medium"` step up. -/
theorem next_difficulty_thresholds_witness :
    AdaptiveEngine.calculate_next_difficulty "medium"
        (List.replicate 5 (AdaptiveEngine.perf true)) none
      = AdaptiveEngine.spec_step_up "medium" := by
  have hA : (((List.replicate 5 (AdaptiveEngine.perf true)).drop
      ((List.replicate 5 (AdaptiveEngine.perf true)).length - 5)).filter
        (fun p => p.is_correct)).length = 5 := by decide
  exact ((next_difficulty_thresholds "medium" (by decide)
      (List.replicate 5 (AdaptiveEngine.perf true))).2.1 (by decide)).1
    (by rw [hA]; norm_num)

end EduSynapse
